import Mathlib

/-!
Verification development for the hypothesis-testing utilities of the
ACIS insurance-risk-analytics repository (`src/stat_tests.py`).

The pandas DataFrame operations are shallow-embedded over Lean lists:
a table is a list of rows, an undefined (NaN) numeric cell is `none`,
and the external statistical routines from scipy/statsmodels
(Shapiro-Wilk, Welch t-test, Mann-Whitney U, chi-square contingency,
two-proportion z-test) are opaque function parameters, since the
repository treats them as library black boxes.  Floating-point numbers
are modelled as rationals.
-/

namespace StatTests

/-- Raw cell of an input table before numeric coercion: a numeric value, a
non-numeric entry (garbled text), or a missing entry (NaN). -/
inductive RawCell where
  | num (q : ℚ)
  | nonNumeric
  | missing
deriving DecidableEq

/-- Numeric coercion `pd.to_numeric(errors="coerce")` (line 35 of
`stat_tests.py`): numeric values survive, non-numeric and missing entries
become undefined (`none`, the model of NaN). -/
def RawCell.toNumeric : RawCell → Option ℚ
  | .num q => some q
  | .nonNumeric => none
  | .missing => none

/-- Input row for `prepare_kpis`: the `TotalClaims` and `TotalPremium` cells
plus all other columns, bundled opaquely as `other`. -/
structure Row (α : Type) where
  other : α
  totalClaims : RawCell
  totalPremium : RawCell
deriving DecidableEq

/-- Output row of `prepare_kpis`: coerced base columns plus the four derived
KPI columns.  `none` models a NaN entry. -/
structure KpiRow (α : Type) where
  other : α
  totalClaims : Option ℚ
  totalPremium : Option ℚ
  hasClaim : ℕ
  claimSeverity : Option ℚ
  lossRatio : Option ℚ
  margin : Option ℚ
deriving DecidableEq

/-- Per-row computation of `prepare_kpis` (`stat_tests.py` lines 31-47).
`HasClaim = (TotalClaims > 0).astype(int)` where a NaN comparison is False;
`ClaimSeverity = TotalClaims / HasClaim` overwritten with NaN where
`HasClaim == 0`; `LossRatio = np.where(TotalPremium > 0,
TotalClaims / TotalPremium, NaN)`; `Margin = TotalPremium - TotalClaims`
with NaN propagation. -/
def rowKpi {α : Type} (r : Row α) : KpiRow α :=
  let tc := r.totalClaims.toNumeric
  let tp := r.totalPremium.toNumeric
  let hasClaim : ℕ := match tc with
    | some q => if 0 < q then 1 else 0
    | none => 0
  let claimSeverity : Option ℚ :=
    if hasClaim = 0 then none else tc.map (fun q => q / (hasClaim : ℚ))
  let lossRatio : Option ℚ := match tp with
    | some p => if 0 < p then tc.map (fun q => q / p) else none
    | none => none
  let margin : Option ℚ := match tp, tc with
    | some p, some c => some (p - c)
    | _, _ => none
  ⟨r.other, tc, tp, hasClaim, claimSeverity, lossRatio, margin⟩

/-- `prepare_kpis` maps the per-row derivation over the copied table
(the source first takes `df.copy()`, so the function is pure in effect). -/
def prepare_kpis {α : Type} (t : List (Row α)) : List (KpiRow α) :=
  t.map rowKpi

/-- A numeric column written back into a raw table: a defined value is a
numeric cell, NaN stays NaN. -/
def numToRaw : Option ℚ → RawCell
  | some q => .num q
  | none => .missing

/-- View of a KPI-derived row as an input row for a second application of
`prepare_kpis`: the base columns are kept, the derived columns would be
overwritten anyway. -/
def kpiToRaw {α : Type} (r : KpiRow α) : Row α :=
  ⟨r.other, numToRaw r.totalClaims, numToRaw r.totalPremium⟩

theorem toNumeric_numToRaw (x : Option ℚ) : (numToRaw x).toNumeric = x := by
  cases x <;> rfl

theorem rowKpi_idem {α : Type} (r : Row α) :
    rowKpi (kpiToRaw (rowKpi r)) = rowKpi r := by
  obtain ⟨o, tc, tp⟩ := r
  cases tc <;> cases tp <;> rfl

/-- C3: for every row of the table returned by `prepare_kpis`, `HasClaim` is
0 or 1 and is 1 exactly when the coerced `TotalClaims` is defined and
positive; `ClaimSeverity` equals `TotalClaims` when `HasClaim = 1` and is
undefined when `HasClaim = 0`; `LossRatio` is `TotalClaims / TotalPremium`
when `TotalPremium > 0` and undefined otherwise; and `Margin` is
`TotalPremium - TotalClaims` whenever both inputs are numeric. -/
theorem prepare_kpis_row_spec {α : Type} (t : List (Row α)) (k : KpiRow α)
    (hk : k ∈ prepare_kpis t) :
    (k.hasClaim = 0 ∨ k.hasClaim = 1) ∧
    (k.hasClaim = 1 ↔ ∃ q, k.totalClaims = some q ∧ 0 < q) ∧
    (k.hasClaim = 1 → k.claimSeverity = k.totalClaims) ∧
    (k.hasClaim = 0 → k.claimSeverity = none) ∧
    (∀ p, k.totalPremium = some p → 0 < p →
      k.lossRatio = k.totalClaims.map (fun c => c / p)) ∧
    (¬ (∃ p, k.totalPremium = some p ∧ 0 < p) → k.lossRatio = none) ∧
    (∀ p c, k.totalPremium = some p → k.totalClaims = some c →
      k.margin = some (p - c)) := by
  obtain ⟨r, _, rfl⟩ := List.mem_map.mp hk
  obtain ⟨o, tc, tp⟩ := r
  cases tc with
  | num q =>
      by_cases hq : 0 < q
      · cases tp with
        | num p =>
            by_cases hp : 0 < p <;>
              simp_all [rowKpi, RawCell.toNumeric, hq, hp]
        | nonNumeric =>
            simp_all [rowKpi, RawCell.toNumeric, hq]
        | missing =>
            simp_all [rowKpi, RawCell.toNumeric, hq]
      · cases tp with
        | num p =>
            by_cases hp : 0 < p <;>
              simp_all [rowKpi, RawCell.toNumeric, hq, hp]
        | nonNumeric =>
            simp_all [rowKpi, RawCell.toNumeric, hq]
        | missing =>
            simp_all [rowKpi, RawCell.toNumeric, hq]
  | nonNumeric =>
      cases tp with
      | num p =>
          by_cases hp : 0 < p <;> simp_all [rowKpi, RawCell.toNumeric, hp]
      | nonNumeric => simp_all [rowKpi, RawCell.toNumeric]
      | missing => simp_all [rowKpi, RawCell.toNumeric]
  | missing =>
      cases tp with
      | num p =>
          by_cases hp : 0 < p <;> simp_all [rowKpi, RawCell.toNumeric, hp]
      | nonNumeric => simp_all [rowKpi, RawCell.toNumeric]
      | missing => simp_all [rowKpi, RawCell.toNumeric]

/-- Witness for C3 at a concrete row with claims 5 and premium 10. -/
theorem prepare_kpis_row_spec_witness :
    (rowKpi (⟨(), .num 5, .num 10⟩ : Row Unit)).hasClaim = 1 ∧
    (rowKpi (⟨(), .num 5, .num 10⟩ : Row Unit)).claimSeverity =
      (rowKpi (⟨(), .num 5, .num 10⟩ : Row Unit)).totalClaims ∧
    (rowKpi (⟨(), .num 5, .num 10⟩ : Row Unit)).lossRatio =
      (rowKpi (⟨(), .num 5, .num 10⟩ : Row Unit)).totalClaims.map
        (fun c => c / 10) ∧
    (rowKpi (⟨(), .num 5, .num 10⟩ : Row Unit)).margin = some (10 - 5) := by
  have h := prepare_kpis_row_spec [(⟨(), .num 5, .num 10⟩ : Row Unit)]
    (rowKpi (⟨(), .num 5, .num 10⟩ : Row Unit)) (by simp [prepare_kpis])
  exact ⟨by decide, h.2.2.1 (by decide),
    h.2.2.2.2.1 10 (by decide) (by decide),
    h.2.2.2.2.2.2 10 5 (by decide) (by decide)⟩

/-- C4: `prepare_kpis` is idempotent: re-deriving on an already-derived table
yields identical rows, hence identical derived columns, since the base
columns are untouched by the derivation. -/
theorem prepare_kpis_idempotent {α : Type} (t : List (Row α)) :
    prepare_kpis ((prepare_kpis t).map kpiToRaw) = prepare_kpis t := by
  induction t with
  | nil => rfl
  | cons r t ih =>
      simp only [prepare_kpis, List.map_cons] at *
      rw [rowKpi_idem, ih]

/-- C9: `prepare_kpis` drops no row and reorders no row: the output has the
same length, and the row at every index keeps all original columns other
than the coerced `TotalClaims`/`TotalPremium`.  The source copies the frame
before assigning, so the embedding is a pure function and the caller's table
is never mutated. -/
theorem prepare_kpis_frame {α : Type} (t : List (Row α)) :
    (prepare_kpis t).length = t.length ∧
    ∀ i : ℕ,
      ((prepare_kpis t)[i]?.map KpiRow.other = t[i]?.map Row.other) ∧
      ((prepare_kpis t)[i]?.map KpiRow.totalClaims =
        t[i]?.map fun r => r.totalClaims.toNumeric) ∧
      ((prepare_kpis t)[i]?.map KpiRow.totalPremium =
        t[i]?.map fun r => r.totalPremium.toNumeric) := by
  refine ⟨by simp [prepare_kpis], fun i => ?_⟩
  rcases h : t[i]? with _ | r <;>
    simp [prepare_kpis, List.getElem?_map, h, rowKpi]

/-- C10: a row whose `TotalClaims` cell fails numeric coercion (missing or
non-numeric) gets `HasClaim = 0` (not undefined), and its `ClaimSeverity`,
`LossRatio` and `Margin` are all undefined. -/
theorem prepare_kpis_undefined_claims {α : Type} (t : List (Row α)) (i : ℕ)
    (r : Row α) (hr : t[i]? = some r) (h : r.totalClaims.toNumeric = none) :
    (prepare_kpis t)[i]? = some (rowKpi r) ∧
    (rowKpi r).hasClaim = 0 ∧
    (rowKpi r).claimSeverity = none ∧
    (rowKpi r).lossRatio = none ∧
    (rowKpi r).margin = none := by
  refine ⟨by simp [prepare_kpis, List.getElem?_map, hr], ?_⟩
  obtain ⟨o, tc, tp⟩ := r
  cases tc with
  | num q => simp [RawCell.toNumeric] at h
  | nonNumeric =>
      cases tp with
      | num p => by_cases hp : 0 < p <;> simp [rowKpi, RawCell.toNumeric, hp]
      | nonNumeric => simp [rowKpi, RawCell.toNumeric]
      | missing => simp [rowKpi, RawCell.toNumeric]
  | missing =>
      cases tp with
      | num p => by_cases hp : 0 < p <;> simp [rowKpi, RawCell.toNumeric, hp]
      | nonNumeric => simp [rowKpi, RawCell.toNumeric]
      | missing => simp [rowKpi, RawCell.toNumeric]

/-- Witness for C10 at a table whose only row has a garbled claims cell. -/
theorem prepare_kpis_undefined_claims_witness :
    (prepare_kpis [(⟨(), .nonNumeric, .num 10⟩ : Row Unit)])[0]? =
      some (rowKpi (⟨(), .nonNumeric, .num 10⟩ : Row Unit)) ∧
    (rowKpi (⟨(), .nonNumeric, .num 10⟩ : Row Unit)).hasClaim = 0 ∧
    (rowKpi (⟨(), .nonNumeric, .num 10⟩ : Row Unit)).claimSeverity = none ∧
    (rowKpi (⟨(), .nonNumeric, .num 10⟩ : Row Unit)).lossRatio = none ∧
    (rowKpi (⟨(), .nonNumeric, .num 10⟩ : Row Unit)).margin = none :=
  prepare_kpis_undefined_claims [(⟨(), .nonNumeric, .num 10⟩ : Row Unit)] 0
    (⟨(), .nonNumeric, .num 10⟩ : Row Unit) (by decide) (by decide)

/-- Input row for the two-group numeric test: the grouping-column value and
the numeric column's cell (`none` models NaN, removed by `.dropna()`). -/
structure NRow (G : Type) where
  group : G
  value : Option ℚ
deriving DecidableEq

/-- Result dictionary of `ttest_or_mannwhitney`: a field is `some` exactly
when the corresponding key is present in the returned Python dict. -/
structure TTestOut where
  error : Option String
  test : Option String
  statistic : Option ℚ
  pvalue : Option ℚ
  n_a : Option ℕ
  n_b : Option ℕ
deriving DecidableEq

/-- Line 135: `sub = df[df[group_col].isin([group_a, group_b])]`. -/
def subTable {G : Type} [DecidableEq G] (t : List (NRow G)) (ga gb : G) :
    List (NRow G) :=
  t.filter (fun r => decide (r.group = ga ∨ r.group = gb))

/-- Lines 136-137: `sub[sub[group_col] == g][numeric_col].dropna()`. -/
def groupSample {G : Type} [DecidableEq G] (t : List (NRow G)) (ga gb g : G) :
    List ℚ :=
  ((subTable t ga gb).filter (fun r => decide (r.group = g))).filterMap
    (fun r => r.value)

/-- Line 144: `a.sample(5000) if len(a) > 5000 else a`; the random subsample
is an opaque parameter. -/
def shapiroInput (sample5000 : List ℚ → List ℚ) (x : List ℚ) : List ℚ :=
  if 5000 < x.length then sample5000 x else x

/-- Shallow embedding of `ttest_or_mannwhitney` (`stat_tests.py` lines
129-163).  The external scipy routines are parameters: `shapiro` returns the
Shapiro-Wilk p-value, or `none` when `stats.shapiro` raises (the `except`
arm sets `normal = False`; the oracle is pure, so evaluating it on both
samples is observationally the same as Python's short-circuit `try`);
`ttestInd` and `mannwhitneyu` return the (statistic, p-value) pair. -/
def ttest_or_mannwhitney {G : Type} [DecidableEq G]
    (shapiro : List ℚ → Option ℚ) (sample5000 : List ℚ → List ℚ)
    (ttestInd mannwhitneyu : List ℚ → List ℚ → ℚ × ℚ)
    (t : List (NRow G)) (ga gb : G) : TTestOut :=
  let a := groupSample t ga gb ga
  let b := groupSample t ga gb gb
  let na := a.length
  let nb := b.length
  if na < 5 ∨ nb < 5 then
    ⟨some "too few observations", none, none, none, some na, some nb⟩
  else
    let sh_a := shapiro (shapiroInput sample5000 a)
    let sh_b := shapiro (shapiroInput sample5000 b)
    let normal : Bool := match sh_a, sh_b with
      | some pa, some pb => decide ((0.05 : ℚ) < pa) && decide ((0.05 : ℚ) < pb)
      | _, _ => false
    if normal && decide (30 ≤ na) && decide (30 ≤ nb) then
      ⟨none, some "t-test (Welch)", some (ttestInd a b).1,
        some (ttestInd a b).2, some na, some nb⟩
    else
      ⟨none, some "Mann-Whitney U", some (mannwhitneyu a b).1,
        some (mannwhitneyu a b).2, some na, some nb⟩

/-- C1: with both samples holding at least 5 defined observations, the test
reported is "t-test (Welch)" precisely when the two Shapiro p-values the
code computes both exist and exceed 0.05 and both sample sizes are at least
30; in every other case (size-10 normal samples included) it is
"Mann-Whitney U". -/
theorem ttest_or_mannwhitney_branch {G : Type} [DecidableEq G]
    (shapiro : List ℚ → Option ℚ) (sample5000 : List ℚ → List ℚ)
    (ttestInd mannwhitneyu : List ℚ → List ℚ → ℚ × ℚ)
    (t : List (NRow G)) (ga gb : G)
    (ha : 5 ≤ (groupSample t ga gb ga).length)
    (hb : 5 ≤ (groupSample t ga gb gb).length) :
    ((ttest_or_mannwhitney shapiro sample5000 ttestInd mannwhitneyu t ga gb).test
        = some "t-test (Welch)" ↔
      (∃ pa pb,
        shapiro (shapiroInput sample5000 (groupSample t ga gb ga)) = some pa ∧
        shapiro (shapiroInput sample5000 (groupSample t ga gb gb)) = some pb ∧
        (0.05 : ℚ) < pa ∧ (0.05 : ℚ) < pb ∧
        30 ≤ (groupSample t ga gb ga).length ∧
        30 ≤ (groupSample t ga gb gb).length)) ∧
    ((ttest_or_mannwhitney shapiro sample5000 ttestInd mannwhitneyu t ga gb).test
        = some "t-test (Welch)" ∨
      (ttest_or_mannwhitney shapiro sample5000 ttestInd mannwhitneyu t ga gb).test
        = some "Mann-Whitney U") := by
  unfold ttest_or_mannwhitney
  have h5 : ¬ ((groupSample t ga gb ga).length < 5 ∨
      (groupSample t ga gb gb).length < 5) := by omega
  rw [if_neg h5]
  rcases hsa : shapiro (shapiroInput sample5000 (groupSample t ga gb ga)) with
    _ | pa <;>
    rcases hsb : shapiro (shapiroInput sample5000 (groupSample t ga gb gb)) with
      _ | pb
  · simp [hsa, hsb]
  · simp [hsa, hsb]
  · simp [hsa, hsb]
  · by_cases hpa : (0.05 : ℚ) < pa <;> by_cases hpb : (0.05 : ℚ) < pb <;>
      by_cases h30a : 30 ≤ (groupSample t ga gb ga).length <;>
      by_cases h30b : 30 ≤ (groupSample t ga gb gb).length <;>
      simp [hsa, hsb, hpa, hpb, h30a, h30b]

/-- Witness for C1: thirty observations per group, Shapiro p-value 0.1 on
both, so Welch's t-test is selected. -/
theorem ttest_or_mannwhitney_branch_witness :
    ((ttest_or_mannwhitney (fun _ => some (0.1 : ℚ)) id
        (fun _ _ => ((1 : ℚ), (1 / 2 : ℚ))) (fun _ _ => ((2 : ℚ), (1 / 3 : ℚ)))
        (List.replicate 30 (⟨0, some 1⟩ : NRow ℕ) ++
          List.replicate 30 (⟨1, some 2⟩ : NRow ℕ)) 0 1).test
        = some "t-test (Welch)" ↔
      (∃ pa pb,
        (fun (_ : List ℚ) => some (0.1 : ℚ))
          (shapiroInput id (groupSample
            (List.replicate 30 (⟨0, some 1⟩ : NRow ℕ) ++
              List.replicate 30 (⟨1, some 2⟩ : NRow ℕ)) 0 1 0)) = some pa ∧
        (fun (_ : List ℚ) => some (0.1 : ℚ))
          (shapiroInput id (groupSample
            (List.replicate 30 (⟨0, some 1⟩ : NRow ℕ) ++
              List.replicate 30 (⟨1, some 2⟩ : NRow ℕ)) 0 1 1)) = some pb ∧
        (0.05 : ℚ) < pa ∧ (0.05 : ℚ) < pb ∧
        30 ≤ (groupSample
          (List.replicate 30 (⟨0, some 1⟩ : NRow ℕ) ++
            List.replicate 30 (⟨1, some 2⟩ : NRow ℕ)) 0 1 0).length ∧
        30 ≤ (groupSample
          (List.replicate 30 (⟨0, some 1⟩ : NRow ℕ) ++
            List.replicate 30 (⟨1, some 2⟩ : NRow ℕ)) 0 1 1).length)) ∧
    ((ttest_or_mannwhitney (fun _ => some (0.1 : ℚ)) id
        (fun _ _ => ((1 : ℚ), (1 / 2 : ℚ))) (fun _ _ => ((2 : ℚ), (1 / 3 : ℚ)))
        (List.replicate 30 (⟨0, some 1⟩ : NRow ℕ) ++
          List.replicate 30 (⟨1, some 2⟩ : NRow ℕ)) 0 1).test
        = some "t-test (Welch)" ∨
      (ttest_or_mannwhitney (fun _ => some (0.1 : ℚ)) id
        (fun _ _ => ((1 : ℚ), (1 / 2 : ℚ))) (fun _ _ => ((2 : ℚ), (1 / 3 : ℚ)))
        (List.replicate 30 (⟨0, some 1⟩ : NRow ℕ) ++
          List.replicate 30 (⟨1, some 2⟩ : NRow ℕ)) 0 1).test
        = some "Mann-Whitney U") :=
  ttest_or_mannwhitney_branch (fun _ => some (0.1 : ℚ)) id
    (fun _ _ => ((1 : ℚ), (1 / 2 : ℚ))) (fun _ _ => ((2 : ℚ), (1 / 3 : ℚ)))
    (List.replicate 30 (⟨0, some 1⟩ : NRow ℕ) ++
      List.replicate 30 (⟨1, some 2⟩ : NRow ℕ)) 0 1
    (by decide) (by decide)

/-- Example table with three defined observations in each of groups 0, 1. -/
def smallTable : List (NRow ℕ) :=
  [⟨0, some 1⟩, ⟨0, some 2⟩, ⟨0, some 3⟩, ⟨1, some 4⟩, ⟨1, some 5⟩, ⟨1, some 6⟩]

/-- Example table with five defined observations in each of groups 0, 1. -/
def midTable : List (NRow ℕ) :=
  List.replicate 5 (⟨0, some 1⟩ : NRow ℕ) ++
    List.replicate 5 (⟨1, some 2⟩ : NRow ℕ)

/-- C7: a failure of the internal normality check (the Shapiro oracle
returning `none` on either sample) never propagates an error to the caller:
the pair is treated as non-normal and the Mann-Whitney U test runs,
returning a normal structured result with no error key. -/
theorem ttest_or_mannwhitney_shapiro_failure {G : Type} [DecidableEq G]
    (shapiro : List ℚ → Option ℚ) (sample5000 : List ℚ → List ℚ)
    (ttestInd mannwhitneyu : List ℚ → List ℚ → ℚ × ℚ)
    (t : List (NRow G)) (ga gb : G)
    (ha : 5 ≤ (groupSample t ga gb ga).length)
    (hb : 5 ≤ (groupSample t ga gb gb).length)
    (hfail :
      shapiro (shapiroInput sample5000 (groupSample t ga gb ga)) = none ∨
      shapiro (shapiroInput sample5000 (groupSample t ga gb gb)) = none) :
    (ttest_or_mannwhitney shapiro sample5000 ttestInd mannwhitneyu t ga gb).error
      = none ∧
    (ttest_or_mannwhitney shapiro sample5000 ttestInd mannwhitneyu t ga gb).test
      = some "Mann-Whitney U" ∧
    (ttest_or_mannwhitney shapiro sample5000 ttestInd mannwhitneyu t ga gb).statistic
      = some (mannwhitneyu (groupSample t ga gb ga) (groupSample t ga gb gb)).1 ∧
    (ttest_or_mannwhitney shapiro sample5000 ttestInd mannwhitneyu t ga gb).pvalue
      = some (mannwhitneyu (groupSample t ga gb ga) (groupSample t ga gb gb)).2 ∧
    (ttest_or_mannwhitney shapiro sample5000 ttestInd mannwhitneyu t ga gb).n_a
      = some (groupSample t ga gb ga).length ∧
    (ttest_or_mannwhitney shapiro sample5000 ttestInd mannwhitneyu t ga gb).n_b
      = some (groupSample t ga gb gb).length := by
  unfold ttest_or_mannwhitney
  have h5 : ¬ ((groupSample t ga gb ga).length < 5 ∨
      (groupSample t ga gb gb).length < 5) := by omega
  rw [if_neg h5]
  rcases hfail with hfa | hfb
  · rcases hsb : shapiro (shapiroInput sample5000 (groupSample t ga gb gb)) with
      _ | pb <;> simp [hfa, hsb]
  · rcases hsa : shapiro (shapiroInput sample5000 (groupSample t ga gb ga)) with
      _ | pa <;> simp [hfb, hsa]

/-- Witness for C7: five observations per group and a Shapiro oracle that
always raises; the result is a structured Mann-Whitney record. -/
theorem ttest_or_mannwhitney_shapiro_failure_witness :
    (ttest_or_mannwhitney (fun _ => none) id
        (fun _ _ => ((1 : ℚ), (1 / 2 : ℚ))) (fun _ _ => ((2 : ℚ), (1 / 3 : ℚ)))
        midTable 0 1).error = none ∧
    (ttest_or_mannwhitney (fun _ => none) id
        (fun _ _ => ((1 : ℚ), (1 / 2 : ℚ))) (fun _ _ => ((2 : ℚ), (1 / 3 : ℚ)))
        midTable 0 1).test = some "Mann-Whitney U" ∧
    (ttest_or_mannwhitney (fun _ => none) id
        (fun _ _ => ((1 : ℚ), (1 / 2 : ℚ))) (fun _ _ => ((2 : ℚ), (1 / 3 : ℚ)))
        midTable 0 1).statistic =
      some ((fun (_ _ : List ℚ) => ((2 : ℚ), (1 / 3 : ℚ)))
        (groupSample midTable 0 1 0) (groupSample midTable 0 1 1)).1 ∧
    (ttest_or_mannwhitney (fun _ => none) id
        (fun _ _ => ((1 : ℚ), (1 / 2 : ℚ))) (fun _ _ => ((2 : ℚ), (1 / 3 : ℚ)))
        midTable 0 1).pvalue =
      some ((fun (_ _ : List ℚ) => ((2 : ℚ), (1 / 3 : ℚ)))
        (groupSample midTable 0 1 0) (groupSample midTable 0 1 1)).2 ∧
    (ttest_or_mannwhitney (fun _ => none) id
        (fun _ _ => ((1 : ℚ), (1 / 2 : ℚ))) (fun _ _ => ((2 : ℚ), (1 / 3 : ℚ)))
        midTable 0 1).n_a = some (groupSample midTable 0 1 0).length ∧
    (ttest_or_mannwhitney (fun _ => none) id
        (fun _ _ => ((1 : ℚ), (1 / 2 : ℚ))) (fun _ _ => ((2 : ℚ), (1 / 3 : ℚ)))
        midTable 0 1).n_b = some (groupSample midTable 0 1 1).length :=
  ttest_or_mannwhitney_shapiro_failure (fun _ => none) id
    (fun _ _ => ((1 : ℚ), (1 / 2 : ℚ))) (fun _ _ => ((2 : ℚ), (1 / 3 : ℚ)))
    midTable 0 1 (by decide) (by decide) (Or.inl rfl)

/-- C8: when either sample has fewer than 5 defined observations,
`ttest_or_mannwhitney` returns (does not raise) an error dictionary carrying
both sample sizes as `n_a` and `n_b`, and runs no statistical test: the
result has no test, statistic or p-value key. -/
theorem ttest_or_mannwhitney_too_few {G : Type} [DecidableEq G]
    (shapiro : List ℚ → Option ℚ) (sample5000 : List ℚ → List ℚ)
    (ttestInd mannwhitneyu : List ℚ → List ℚ → ℚ × ℚ)
    (t : List (NRow G)) (ga gb : G)
    (h : (groupSample t ga gb ga).length < 5 ∨
      (groupSample t ga gb gb).length < 5) :
    (ttest_or_mannwhitney shapiro sample5000 ttestInd mannwhitneyu t ga gb).error
      = some "too few observations" ∧
    (ttest_or_mannwhitney shapiro sample5000 ttestInd mannwhitneyu t ga gb).n_a
      = some (groupSample t ga gb ga).length ∧
    (ttest_or_mannwhitney shapiro sample5000 ttestInd mannwhitneyu t ga gb).n_b
      = some (groupSample t ga gb gb).length ∧
    (ttest_or_mannwhitney shapiro sample5000 ttestInd mannwhitneyu t ga gb).test
      = none ∧
    (ttest_or_mannwhitney shapiro sample5000 ttestInd mannwhitneyu t ga gb).statistic
      = none ∧
    (ttest_or_mannwhitney shapiro sample5000 ttestInd mannwhitneyu t ga gb).pvalue
      = none := by
  unfold ttest_or_mannwhitney
  rw [if_pos h]
  exact ⟨rfl, rfl, rfl, rfl, rfl, rfl⟩

/-- Witness for C8: sample sizes 3 and 3 yield the error record with
`n_a = 3` and `n_b = 3`. -/
theorem ttest_or_mannwhitney_too_few_witness :
    ((ttest_or_mannwhitney (fun _ => none) id
        (fun _ _ => ((1 : ℚ), (1 / 2 : ℚ))) (fun _ _ => ((2 : ℚ), (1 / 3 : ℚ)))
        smallTable 0 1).error = some "too few observations" ∧
      (ttest_or_mannwhitney (fun _ => none) id
        (fun _ _ => ((1 : ℚ), (1 / 2 : ℚ))) (fun _ _ => ((2 : ℚ), (1 / 3 : ℚ)))
        smallTable 0 1).n_a = some (groupSample smallTable 0 1 0).length ∧
      (ttest_or_mannwhitney (fun _ => none) id
        (fun _ _ => ((1 : ℚ), (1 / 2 : ℚ))) (fun _ _ => ((2 : ℚ), (1 / 3 : ℚ)))
        smallTable 0 1).n_b = some (groupSample smallTable 0 1 1).length ∧
      (ttest_or_mannwhitney (fun _ => none) id
        (fun _ _ => ((1 : ℚ), (1 / 2 : ℚ))) (fun _ _ => ((2 : ℚ), (1 / 3 : ℚ)))
        smallTable 0 1).test = none ∧
      (ttest_or_mannwhitney (fun _ => none) id
        (fun _ _ => ((1 : ℚ), (1 / 2 : ℚ))) (fun _ _ => ((2 : ℚ), (1 / 3 : ℚ)))
        smallTable 0 1).statistic = none ∧
      (ttest_or_mannwhitney (fun _ => none) id
        (fun _ _ => ((1 : ℚ), (1 / 2 : ℚ))) (fun _ _ => ((2 : ℚ), (1 / 3 : ℚ)))
        smallTable 0 1).pvalue = none) ∧
    (groupSample smallTable 0 1 0).length = 3 ∧
    (groupSample smallTable 0 1 1).length = 3 :=
  ⟨ttest_or_mannwhitney_too_few (fun _ => none) id
      (fun _ _ => ((1 : ℚ), (1 / 2 : ℚ))) (fun _ _ => ((2 : ℚ), (1 / 3 : ℚ)))
      smallTable 0 1 (by decide), by decide, by decide⟩

/-- Distinct group keys in pandas `groupby` iteration order: `sort=True` is
the pandas default, so the keys come out sorted ascending. -/
def sortedKeys {G : Type} [LinearOrder G] (l : List G) : List G :=
  List.insertionSort (fun a b => a ≤ b) l.dedup

/-- Input row for `agg_by_group`: the grouping value, the `PolicyID` cell and
the KPI columns the aggregation reads. -/
structure ARow (G : Type) where
  group : G
  policyID : ℕ
  hasClaim : ℕ
  claimSeverity : Option ℚ
  lossRatio : Option ℚ
  margin : Option ℚ
deriving DecidableEq

/-- One aggregated row of `agg_by_group`. -/
structure GroupAgg (G : Type) where
  group : G
  n_policies : ℕ
  n_claims : ℕ
  mean_claim_severity : Option ℚ
  mean_lossratio : Option ℚ
  mean_margin : Option ℚ
  claim_freq : ℚ
deriving DecidableEq

/-- Descending order on `n_policies`, the sort key of
`g.sort_values("n_policies", ascending=False)`. -/
def npGE {G : Type} (x y : GroupAgg G) : Prop :=
  y.n_policies ≤ x.n_policies

instance {G : Type} : DecidableRel (@npGE G) :=
  fun x y => Nat.decLe y.n_policies x.n_policies

instance {G : Type} : IsTotal (GroupAgg G) npGE :=
  ⟨fun a b => (Nat.le_total b.n_policies a.n_policies).elim Or.inl Or.inr⟩

instance {G : Type} : IsTrans (GroupAgg G) npGE :=
  ⟨fun _ _ _ h h' => le_trans h' h⟩

/-- Mean of a numeric column skipping undefined entries; a group with no
defined entry gets an undefined mean (the pandas `mean` aggregation). -/
def optMean (xs : List (Option ℚ)) : Option ℚ :=
  let vs := xs.filterMap id
  if vs.length = 0 then none else some (vs.sum / (vs.length : ℚ))

/-- Rows of one group, in table order. -/
def rowsOf {G : Type} [DecidableEq G] (t : List (ARow G)) (k : G) :
    List (ARow G) :=
  t.filter (fun r => decide (r.group = k))

/-- Aggregate record of one group (`stat_tests.py` lines 54-61):
`n_policies` counts distinct `PolicyID`s when the column exists, else rows;
`n_claims` sums `HasClaim`; the means skip undefined entries;
`claim_freq = n_claims / n_policies`. -/
def aggOf {G : Type} [DecidableEq G] (hasPID : Bool) (t : List (ARow G))
    (k : G) : GroupAgg G :=
  let rows := rowsOf t k
  let n_pol := if hasPID then ((rows.map fun r => r.policyID).dedup).length
    else rows.length
  let n_cl := (rows.map fun r => r.hasClaim).sum
  ⟨k, n_pol, n_cl,
    optMean (rows.map fun r => r.claimSeverity),
    optMean (rows.map fun r => r.lossRatio),
    optMean (rows.map fun r => r.margin),
    (n_cl : ℚ) / (n_pol : ℚ)⟩

/-- Shallow embedding of `agg_by_group` (lines 49-63): aggregate per group,
sort by `n_policies` descending, keep only groups whose `n_policies` reaches
`min_count`. -/
def agg_by_group {G : Type} [LinearOrder G] (hasPID : Bool)
    (t : List (ARow G)) (min_count : ℕ) : List (GroupAgg G) :=
  let g := (sortedKeys (t.map fun r => r.group)).map (aggOf hasPID t)
  let sorted := List.insertionSort npGE g
  sorted.filter (fun x => decide (min_count ≤ x.n_policies))

/-- C5: every row returned by `agg_by_group` has `n_policies >= min_count`,
and the returned rows are ordered by `n_policies` descending. -/
theorem agg_by_group_invariant {G : Type} [LinearOrder G] (hasPID : Bool)
    (t : List (ARow G)) (min_count : ℕ) :
    (∀ x ∈ agg_by_group hasPID t min_count, min_count ≤ x.n_policies) ∧
    (agg_by_group hasPID t min_count).Pairwise
      (fun x y => y.n_policies ≤ x.n_policies) := by
  constructor
  · intro x hx
    simp only [agg_by_group, List.mem_filter] at hx
    simpa using hx.2
  · have hs : (List.insertionSort npGE
        ((sortedKeys (t.map fun r => r.group)).map (aggOf hasPID t))).Pairwise
          npGE :=
      List.sorted_insertionSort npGE _
    exact List.Pairwise.sublist (List.filter_sublist _) hs

/-- Example KPI-derived table for the aggregation: two rows in group 0, one
row in group 1. -/
def aggTable : List (ARow ℕ) :=
  [⟨0, 1, 1, some 5, some (1 / 2), some 5⟩,
   ⟨0, 2, 0, none, some 0, some 10⟩,
   ⟨1, 3, 1, some 2, none, some 1⟩]

/-- Witness for C5: with `min_count = 2` only group 0 (2 rows) survives, and
its `n_policies` meets the threshold; the output is sorted descending. -/
theorem agg_by_group_invariant_witness :
    2 ≤ (aggOf false aggTable 0).n_policies ∧
    (agg_by_group false aggTable 2).Pairwise
      (fun x y => y.n_policies ≤ x.n_policies) :=
  ⟨(agg_by_group_invariant false aggTable 2).1 (aggOf false aggTable 0)
      (by simp [agg_by_group, sortedKeys, aggTable, List.insertionSort,
        List.orderedInsert, npGE, aggOf, rowsOf]),
    (agg_by_group_invariant false aggTable 2).2⟩

/-- Input row for the frequency tests: the grouping value and the `HasClaim`
column. -/
structure PRow (G : Type) where
  group : G
  hasClaim : ℕ
deriving DecidableEq

/-- Rows of one group of a frequency-test table, in table order. -/
def groupRows {G : Type} [DecidableEq G] (t : List (PRow G)) (k : G) :
    List (PRow G) :=
  t.filter (fun r => decide (r.group = k))

/-- Per-group claim count: the groupby sum of `HasClaim`. -/
def groupClaims {G : Type} [DecidableEq G] (t : List (PRow G)) (k : G) : ℕ :=
  ((groupRows t k).map fun r => r.hasClaim).sum

/-- Per-group observation count: the groupby count of `HasClaim`. -/
def groupObs {G : Type} [DecidableEq G] (t : List (PRow G)) (k : G) : ℕ :=
  (groupRows t k).length

/-- Result dictionary of `chi2_test_frequency`: a field is `some` exactly
when the corresponding key is present in the returned Python dict. -/
structure Chi2Out (G : Type) where
  error : Option String
  groups : Option (List G)
  statistic : Option ℚ
  pvalue : Option ℚ
  dof : Option ℕ
  expected : Option (List (List ℚ))
  groups_used : Option (List G)
  contingency_table : Option (List (List ℤ))
deriving DecidableEq

/-- Groups whose row count reaches `min_count` (lines 71-72), in groupby
(sorted) order. -/
def qualKeys {G : Type} [LinearOrder G] (t : List (PRow G)) (min_count : ℕ) :
    List G :=
  (sortedKeys (t.map fun r => r.group)).filter
    (fun k => decide (min_count ≤ groupObs t k))

/-- Shallow embedding of `chi2_test_frequency` (lines 65-86); the chi-square
contingency routine is an opaque parameter returning
(statistic, p-value, dof, expected). -/
def chi2_test_frequency {G : Type} [LinearOrder G]
    (chi2fn : List (List ℤ) → ℚ × ℚ × ℕ × List (List ℚ))
    (t : List (PRow G)) (min_count : ℕ) : Chi2Out G :=
  let qual := qualKeys t min_count
  if qual.length < 2 then
    ⟨some "not enough groups with min_count", some qual,
      none, none, none, none, none, none⟩
  else
    let contingency := qual.map fun k =>
      [(groupObs t k : ℤ) - (groupClaims t k : ℤ), (groupClaims t k : ℤ)]
    let res := chi2fn contingency
    ⟨none, none, some res.1, some res.2.1, some res.2.2.1, some res.2.2.2,
      some qual, some contingency⟩

/-- C6: with fewer than 2 qualifying groups, `chi2_test_frequency` returns
(does not raise) a dict holding an error key and the qualifying group list
and no statistic key; otherwise the dict holds statistic, p-value, dof,
expected, the groups used, and a contingency table whose row for each
qualifying group is [no-claim count, claim count]. -/
theorem chi2_test_frequency_spec {G : Type} [LinearOrder G]
    (chi2fn : List (List ℤ) → ℚ × ℚ × ℕ × List (List ℚ))
    (t : List (PRow G)) (min_count : ℕ) :
    if (qualKeys t min_count).length < 2 then
      (chi2_test_frequency chi2fn t min_count).error.isSome = true ∧
      (chi2_test_frequency chi2fn t min_count).groups
        = some (qualKeys t min_count) ∧
      (chi2_test_frequency chi2fn t min_count).statistic = none ∧
      (chi2_test_frequency chi2fn t min_count).pvalue = none ∧
      (chi2_test_frequency chi2fn t min_count).dof = none ∧
      (chi2_test_frequency chi2fn t min_count).expected = none ∧
      (chi2_test_frequency chi2fn t min_count).groups_used = none ∧
      (chi2_test_frequency chi2fn t min_count).contingency_table = none
    else
      (chi2_test_frequency chi2fn t min_count).error = none ∧
      (chi2_test_frequency chi2fn t min_count).statistic
        = some (chi2fn ((qualKeys t min_count).map fun k =>
            [(groupObs t k : ℤ) - (groupClaims t k : ℤ),
              (groupClaims t k : ℤ)])).1 ∧
      (chi2_test_frequency chi2fn t min_count).pvalue
        = some (chi2fn ((qualKeys t min_count).map fun k =>
            [(groupObs t k : ℤ) - (groupClaims t k : ℤ),
              (groupClaims t k : ℤ)])).2.1 ∧
      (chi2_test_frequency chi2fn t min_count).dof
        = some (chi2fn ((qualKeys t min_count).map fun k =>
            [(groupObs t k : ℤ) - (groupClaims t k : ℤ),
              (groupClaims t k : ℤ)])).2.2.1 ∧
      (chi2_test_frequency chi2fn t min_count).expected
        = some (chi2fn ((qualKeys t min_count).map fun k =>
            [(groupObs t k : ℤ) - (groupClaims t k : ℤ),
              (groupClaims t k : ℤ)])).2.2.2 ∧
      (chi2_test_frequency chi2fn t min_count).groups_used
        = some (qualKeys t min_count) ∧
      (chi2_test_frequency chi2fn t min_count).contingency_table
        = some ((qualKeys t min_count).map fun k =>
            [(groupObs t k : ℤ) - (groupClaims t k : ℤ),
              (groupClaims t k : ℤ)]) := by
  unfold chi2_test_frequency
  split_ifs with h
  · rw [if_pos h]
    exact ⟨rfl, rfl, rfl, rfl, rfl, rfl, rfl, rfl⟩
  · rw [if_neg h]
    exact ⟨rfl, rfl, rfl, rfl, rfl, rfl, rfl⟩

/-- Line 94: the rows whose group value is one of the two requested
(`df[df[group_col].isin([group_a, group_b])]`). -/
def subP {G : Type} [DecidableEq G] (t : List (PRow G)) (ga gb : G) :
    List (PRow G) :=
  t.filter (fun r => decide (r.group = ga ∨ r.group = gb))

/-- Result dictionary of `proportion_ztest_pair`: a field is `some` exactly
when the corresponding key is present in the returned Python dict. -/
structure PropOut (G : Type) where
  error : Option String
  counts_map : Option (List (G × ℕ))
  nobs_map : Option (List (G × ℕ))
  statistic : Option ℚ
  pvalue : Option ℚ
  count : Option (List ℕ)
  nobs : Option (List ℕ)
deriving DecidableEq

/-- Shallow embedding of `proportion_ztest_pair` (lines 88-108).  The
per-group claim counts and row counts are pandas groupby Series indexed by
the sorted group keys (`sort=True` default), and `iloc[0]`/`iloc[1]` read
them in that sorted order.  The two-proportion z-test is an opaque
parameter returning (statistic, p-value). -/
def proportion_ztest_pair {G : Type} [LinearOrder G]
    (ztest : List ℕ → List ℕ → ℚ × ℚ) (t : List (PRow G)) (ga gb : G) :
    PropOut G :=
  let sub := subP t ga gb
  let keys := sortedKeys (sub.map fun r => r.group)
  let counts := keys.map fun k => (k, groupClaims sub k)
  let nobs := keys.map fun k => (k, groupObs sub k)
  if counts.length ≠ 2 then
    ⟨some "groups not found or insufficient data", some counts, some nobs,
      none, none, none, none⟩
  else
    let count := counts.map fun x => x.2
    let nobsL := nobs.map fun x => x.2
    ⟨none, none, none, some (ztest count nobsL).1,
      some (ztest count nobsL).2, some count, some nobsL⟩

/-- First-appearance (row-encounter) order of a list of group keys. -/
def encounterKeys {G : Type} [DecidableEq G] (l : List G) : List G :=
  l.foldl (fun acc k => if k ∈ acc then acc else acc ++ [k]) []

/-- Per-group claim counts in the order the groups are encountered in the
table — the order the claim asserts for the returned `count`. -/
def encounterClaimCounts {G : Type} [DecidableEq G] (sub : List (PRow G)) :
    List ℕ :=
  (encounterKeys (sub.map fun r => r.group)).map fun k => groupClaims sub k

/-- Two-row table in which group 1 (one claim in one row) is encountered
before group 0 (no claim in one row). -/
def cexTable : List (PRow ℕ) := [⟨1, 1⟩, ⟨0, 0⟩]

/-- C2 counterexample: on `cexTable` the code returns `count = some [0, 1]`,
the per-group claim counts in ascending group-key order (the pandas groupby
default), while the row-encounter order demanded by the claim would give
`[1, 0]`. -/
theorem proportion_ztest_pair_encounter_cex :
    (proportion_ztest_pair (fun _ _ => ((0 : ℚ), (0 : ℚ))) cexTable 1 0).count
      = some [0, 1] ∧
    encounterClaimCounts (subP cexTable 1 0) = [1, 0] ∧
    ([0, 1] : List ℕ) ≠ [1, 0] := by decide

/-- C2 amended: when both requested groups are present — the filtered table
has exactly two distinct group keys, `[k1, k2]` in groupby (ascending)
order — `proportion_ztest_pair` returns the per-group claim counts in
`count` and row counts in `nobs` in that ascending group-key order (not the
row-encounter order), together with the statistic and p-value produced by
the external two-proportion z-test on those arrays. -/
theorem proportion_ztest_pair_sorted_order {G : Type} [LinearOrder G]
    (ztest : List ℕ → List ℕ → ℚ × ℚ) (t : List (PRow G)) (ga gb k1 k2 : G)
    (hkeys : sortedKeys ((subP t ga gb).map fun r => r.group) = [k1, k2]) :
    (proportion_ztest_pair ztest t ga gb).error = none ∧
    (proportion_ztest_pair ztest t ga gb).count
      = some [groupClaims (subP t ga gb) k1, groupClaims (subP t ga gb) k2] ∧
    (proportion_ztest_pair ztest t ga gb).nobs
      = some [groupObs (subP t ga gb) k1, groupObs (subP t ga gb) k2] ∧
    (proportion_ztest_pair ztest t ga gb).statistic
      = some (ztest
          [groupClaims (subP t ga gb) k1, groupClaims (subP t ga gb) k2]
          [groupObs (subP t ga gb) k1, groupObs (subP t ga gb) k2]).1 ∧
    (proportion_ztest_pair ztest t ga gb).pvalue
      = some (ztest
          [groupClaims (subP t ga gb) k1, groupClaims (subP t ga gb) k2]
          [groupObs (subP t ga gb) k1, groupObs (subP t ga gb) k2]).2 := by
  simp only [proportion_ztest_pair]
  rw [hkeys]
  simp

/-- Table with the proportions of the spec example: group 0 has 10 claims in
100 rows, group 1 has 20 claims in 100 rows. -/
def propTable : List (PRow ℕ) :=
  List.replicate 10 (⟨0, 1⟩ : PRow ℕ) ++ List.replicate 90 (⟨0, 0⟩ : PRow ℕ)
    ++ List.replicate 20 (⟨1, 1⟩ : PRow ℕ)
    ++ List.replicate 80 (⟨1, 0⟩ : PRow ℕ)

set_option maxRecDepth 100000 in
/-- Witness for the amended C2 on the spec example: the counts come out as
`[10, 20]` with `nobs = [100, 100]`. -/
theorem proportion_ztest_pair_sorted_order_witness :
    ((proportion_ztest_pair (fun _ _ => ((1 : ℚ), (1 / 2 : ℚ))) propTable 0 1).error
        = none ∧
      (proportion_ztest_pair (fun _ _ => ((1 : ℚ), (1 / 2 : ℚ))) propTable 0 1).count
        = some [groupClaims (subP propTable 0 1) 0,
            groupClaims (subP propTable 0 1) 1] ∧
      (proportion_ztest_pair (fun _ _ => ((1 : ℚ), (1 / 2 : ℚ))) propTable 0 1).nobs
        = some [groupObs (subP propTable 0 1) 0,
            groupObs (subP propTable 0 1) 1] ∧
      (proportion_ztest_pair (fun _ _ => ((1 : ℚ), (1 / 2 : ℚ))) propTable 0 1).statistic
        = some ((fun (_ _ : List ℕ) => ((1 : ℚ), (1 / 2 : ℚ)))
            [groupClaims (subP propTable 0 1) 0,
              groupClaims (subP propTable 0 1) 1]
            [groupObs (subP propTable 0 1) 0,
              groupObs (subP propTable 0 1) 1]).1 ∧
      (proportion_ztest_pair (fun _ _ => ((1 : ℚ), (1 / 2 : ℚ))) propTable 0 1).pvalue
        = some ((fun (_ _ : List ℕ) => ((1 : ℚ), (1 / 2 : ℚ)))
            [groupClaims (subP propTable 0 1) 0,
              groupClaims (subP propTable 0 1) 1]
            [groupObs (subP propTable 0 1) 0,
              groupObs (subP propTable 0 1) 1]).2) ∧
    groupClaims (subP propTable 0 1) 0 = 10 ∧
    groupClaims (subP propTable 0 1) 1 = 20 ∧
    groupObs (subP propTable 0 1) 0 = 100 ∧
    groupObs (subP propTable 0 1) 1 = 100 :=
  ⟨proportion_ztest_pair_sorted_order (fun _ _ => ((1 : ℚ), (1 / 2 : ℚ)))
      propTable 0 1 0 1 (by decide),
    by decide, by decide, by decide, by decide⟩

end StatTests
